import Mathlib

/-!
Verification development for the MLIR sparse-tensor runtime support library
(`mlir/lib/ExecutionEngine/SparseTensorRuntime.cpp`).

The definitions below are a shallow embedding of the entry points of that
file: enums become Lean inductives, the type-tag dispatch chain becomes a
first-match lookup over the same ordered list of supported cases, the COO
iterator becomes explicit state passing, and the text writer becomes a token
stream.  Collaborator classes that live outside this file
(`SparseTensorStorage`, `SparseTensorCOO`, `SparseTensorReader`) are modelled
abstractly: the dispatcher records exactly which specialized constructor it
invokes with which arguments, and tensor enumeration (`toCOO`) is an
uninterpreted function carried by the opaque pointer.
-/

/-- Overhead-width type tags (`OverheadType` in Enums.h): the runtime tag a
caller passes for the position/coordinate integer width, including the
`kIndex` alias. -/
inductive OverheadType where
  | kIndex
  | kU64
  | kU32
  | kU16
  | kU8
deriving DecidableEq, Repr

/-- Value-kind type tags (`PrimaryType` in Enums.h). -/
inductive PrimaryType where
  | kF64
  | kF32
  | kF16
  | kBF16
  | kI64
  | kI32
  | kI16
  | kI8
  | kC64
  | kC32
deriving DecidableEq, Repr

/-- Action tags (`Action` in Enums.h; the source name is taken by Mathlib)
accepted by `_mlir_ciface_newSparseTensor`. -/
inductive ActionTag where
  | kEmpty
  | kFromCOO
  | kSparseToSparse
  | kEmptyCOO
  | kToCOO
  | kToIterator
  | kPack
deriving DecidableEq, Repr

/-- Concrete C++ overhead types a `CASE` line instantiates for `P` / `C`. -/
inductive OvCppType where
  | uint64_t
  | uint32_t
  | uint16_t
  | uint8_t
deriving DecidableEq, Repr

/-- Concrete C++ value types a `CASE` line instantiates for `V`. -/
inductive ValCppType where
  | double
  | float
  | f16
  | bf16
  | int64_t
  | int32_t
  | int16_t
  | int8_t
  | complex64
  | complex32
deriving DecidableEq, Repr

/-- The `kIndex` rewrite performed before dispatch (SparseTensorRuntime.cpp
lines 258-261 and 567-570): `kIndex` is rewritten to `kU64`, every other tag
is left unchanged. -/
def resolveIndex (t : OverheadType) : OverheadType :=
  if t = OverheadType.kIndex then OverheadType.kU64 else t

/-- The ordered chain of `CASE`/`CASE_SECSAME` guards of
`_mlir_ciface_newSparseTensor` (lines 264-361).  The identical list (same
triples, same order) is expanded again in `_mlir_ciface_newSparseTensorFromReader`
(lines 572-633).  The first guard whose three equality tests succeed selects
the concrete specialization `(P, C, V)`; if none matches, the source reaches
`MLIR_SPARSETENSOR_FATAL`, modelled here as `none`. -/
def findSpecialization (posTp crdTp : OverheadType) (valTp : PrimaryType) :
    Option (OvCppType × OvCppType × ValCppType) :=
  -- Double matrices with all combinations of overhead storage.
  if posTp = .kU64 ∧ crdTp = .kU64 ∧ valTp = .kF64 then some (.uint64_t, .uint64_t, .double)
  else if posTp = .kU64 ∧ crdTp = .kU32 ∧ valTp = .kF64 then some (.uint64_t, .uint32_t, .double)
  else if posTp = .kU64 ∧ crdTp = .kU16 ∧ valTp = .kF64 then some (.uint64_t, .uint16_t, .double)
  else if posTp = .kU64 ∧ crdTp = .kU8 ∧ valTp = .kF64 then some (.uint64_t, .uint8_t, .double)
  else if posTp = .kU32 ∧ crdTp = .kU64 ∧ valTp = .kF64 then some (.uint32_t, .uint64_t, .double)
  else if posTp = .kU32 ∧ crdTp = .kU32 ∧ valTp = .kF64 then some (.uint32_t, .uint32_t, .double)
  else if posTp = .kU32 ∧ crdTp = .kU16 ∧ valTp = .kF64 then some (.uint32_t, .uint16_t, .double)
  else if posTp = .kU32 ∧ crdTp = .kU8 ∧ valTp = .kF64 then some (.uint32_t, .uint8_t, .double)
  else if posTp = .kU16 ∧ crdTp = .kU64 ∧ valTp = .kF64 then some (.uint16_t, .uint64_t, .double)
  else if posTp = .kU16 ∧ crdTp = .kU32 ∧ valTp = .kF64 then some (.uint16_t, .uint32_t, .double)
  else if posTp = .kU16 ∧ crdTp = .kU16 ∧ valTp = .kF64 then some (.uint16_t, .uint16_t, .double)
  else if posTp = .kU16 ∧ crdTp = .kU8 ∧ valTp = .kF64 then some (.uint16_t, .uint8_t, .double)
  else if posTp = .kU8 ∧ crdTp = .kU64 ∧ valTp = .kF64 then some (.uint8_t, .uint64_t, .double)
  else if posTp = .kU8 ∧ crdTp = .kU32 ∧ valTp = .kF64 then some (.uint8_t, .uint32_t, .double)
  else if posTp = .kU8 ∧ crdTp = .kU16 ∧ valTp = .kF64 then some (.uint8_t, .uint16_t, .double)
  else if posTp = .kU8 ∧ crdTp = .kU8 ∧ valTp = .kF64 then some (.uint8_t, .uint8_t, .double)
  -- Float matrices with all combinations of overhead storage.
  else if posTp = .kU64 ∧ crdTp = .kU64 ∧ valTp = .kF32 then some (.uint64_t, .uint64_t, .float)
  else if posTp = .kU64 ∧ crdTp = .kU32 ∧ valTp = .kF32 then some (.uint64_t, .uint32_t, .float)
  else if posTp = .kU64 ∧ crdTp = .kU16 ∧ valTp = .kF32 then some (.uint64_t, .uint16_t, .float)
  else if posTp = .kU64 ∧ crdTp = .kU8 ∧ valTp = .kF32 then some (.uint64_t, .uint8_t, .float)
  else if posTp = .kU32 ∧ crdTp = .kU64 ∧ valTp = .kF32 then some (.uint32_t, .uint64_t, .float)
  else if posTp = .kU32 ∧ crdTp = .kU32 ∧ valTp = .kF32 then some (.uint32_t, .uint32_t, .float)
  else if posTp = .kU32 ∧ crdTp = .kU16 ∧ valTp = .kF32 then some (.uint32_t, .uint16_t, .float)
  else if posTp = .kU32 ∧ crdTp = .kU8 ∧ valTp = .kF32 then some (.uint32_t, .uint8_t, .float)
  else if posTp = .kU16 ∧ crdTp = .kU64 ∧ valTp = .kF32 then some (.uint16_t, .uint64_t, .float)
  else if posTp = .kU16 ∧ crdTp = .kU32 ∧ valTp = .kF32 then some (.uint16_t, .uint32_t, .float)
  else if posTp = .kU16 ∧ crdTp = .kU16 ∧ valTp = .kF32 then some (.uint16_t, .uint16_t, .float)
  else if posTp = .kU16 ∧ crdTp = .kU8 ∧ valTp = .kF32 then some (.uint16_t, .uint8_t, .float)
  else if posTp = .kU8 ∧ crdTp = .kU64 ∧ valTp = .kF32 then some (.uint8_t, .uint64_t, .float)
  else if posTp = .kU8 ∧ crdTp = .kU32 ∧ valTp = .kF32 then some (.uint8_t, .uint32_t, .float)
  else if posTp = .kU8 ∧ crdTp = .kU16 ∧ valTp = .kF32 then some (.uint8_t, .uint16_t, .float)
  else if posTp = .kU8 ∧ crdTp = .kU8 ∧ valTp = .kF32 then some (.uint8_t, .uint8_t, .float)
  -- Two-byte floats with both overheads of the same type.
  else if posTp = .kU64 ∧ crdTp = .kU64 ∧ valTp = .kF16 then some (.uint64_t, .uint64_t, .f16)
  else if posTp = .kU64 ∧ crdTp = .kU64 ∧ valTp = .kBF16 then some (.uint64_t, .uint64_t, .bf16)
  else if posTp = .kU32 ∧ crdTp = .kU32 ∧ valTp = .kF16 then some (.uint32_t, .uint32_t, .f16)
  else if posTp = .kU32 ∧ crdTp = .kU32 ∧ valTp = .kBF16 then some (.uint32_t, .uint32_t, .bf16)
  else if posTp = .kU16 ∧ crdTp = .kU16 ∧ valTp = .kF16 then some (.uint16_t, .uint16_t, .f16)
  else if posTp = .kU16 ∧ crdTp = .kU16 ∧ valTp = .kBF16 then some (.uint16_t, .uint16_t, .bf16)
  else if posTp = .kU8 ∧ crdTp = .kU8 ∧ valTp = .kF16 then some (.uint8_t, .uint8_t, .f16)
  else if posTp = .kU8 ∧ crdTp = .kU8 ∧ valTp = .kBF16 then some (.uint8_t, .uint8_t, .bf16)
  -- Integral matrices with both overheads of the same type.
  else if posTp = .kU64 ∧ crdTp = .kU64 ∧ valTp = .kI64 then some (.uint64_t, .uint64_t, .int64_t)
  else if posTp = .kU64 ∧ crdTp = .kU64 ∧ valTp = .kI32 then some (.uint64_t, .uint64_t, .int32_t)
  else if posTp = .kU64 ∧ crdTp = .kU64 ∧ valTp = .kI16 then some (.uint64_t, .uint64_t, .int16_t)
  else if posTp = .kU64 ∧ crdTp = .kU64 ∧ valTp = .kI8 then some (.uint64_t, .uint64_t, .int8_t)
  else if posTp = .kU32 ∧ crdTp = .kU32 ∧ valTp = .kI64 then some (.uint32_t, .uint32_t, .int64_t)
  else if posTp = .kU32 ∧ crdTp = .kU32 ∧ valTp = .kI32 then some (.uint32_t, .uint32_t, .int32_t)
  else if posTp = .kU32 ∧ crdTp = .kU32 ∧ valTp = .kI16 then some (.uint32_t, .uint32_t, .int16_t)
  else if posTp = .kU32 ∧ crdTp = .kU32 ∧ valTp = .kI8 then some (.uint32_t, .uint32_t, .int8_t)
  else if posTp = .kU16 ∧ crdTp = .kU16 ∧ valTp = .kI64 then some (.uint16_t, .uint16_t, .int64_t)
  else if posTp = .kU16 ∧ crdTp = .kU16 ∧ valTp = .kI32 then some (.uint16_t, .uint16_t, .int32_t)
  else if posTp = .kU16 ∧ crdTp = .kU16 ∧ valTp = .kI16 then some (.uint16_t, .uint16_t, .int16_t)
  else if posTp = .kU16 ∧ crdTp = .kU16 ∧ valTp = .kI8 then some (.uint16_t, .uint16_t, .int8_t)
  else if posTp = .kU8 ∧ crdTp = .kU8 ∧ valTp = .kI64 then some (.uint8_t, .uint8_t, .int64_t)
  else if posTp = .kU8 ∧ crdTp = .kU8 ∧ valTp = .kI32 then some (.uint8_t, .uint8_t, .int32_t)
  else if posTp = .kU8 ∧ crdTp = .kU8 ∧ valTp = .kI16 then some (.uint8_t, .uint8_t, .int16_t)
  else if posTp = .kU8 ∧ crdTp = .kU8 ∧ valTp = .kI8 then some (.uint8_t, .uint8_t, .int8_t)
  -- Complex matrices with wide overhead.
  else if posTp = .kU64 ∧ crdTp = .kU64 ∧ valTp = .kC64 then some (.uint64_t, .uint64_t, .complex64)
  else if posTp = .kU64 ∧ crdTp = .kU64 ∧ valTp = .kC32 then some (.uint64_t, .uint64_t, .complex32)
  else none

/-- One stored element of a COO list (`Element<V>` in COO.h): a coordinate
tuple and a value. -/
structure Element (V : Type) where
  coords : List Nat
  value : V
deriving DecidableEq, Repr

/-- A coordinate list (`SparseTensorCOO<V>`): rank, per-level sizes, and the
ordered element list. -/
structure SparseTensorCOO (V : Type) where
  lvlRank : Nat
  lvlSizes : List Nat
  elements : List (Element V)
deriving DecidableEq, Repr

/-- Modelled from the spec: `SparseTensorCOO<V>::add` (COO.h, outside src/)
appends one (coordinate-tuple, value) element to the ordered coordinate list
(the Coordinate-List is "an ordered sequence of (coordinate-tuple, value)
pairs"; the add-element mutation appends to it). -/
def SparseTensorCOO.add {V : Type} (coo : SparseTensorCOO V) (coords : List Nat)
    (v : V) : SparseTensorCOO V :=
  { coo with elements := coo.elements ++ [⟨coords, v⟩] }

/-- Iterator state (`SparseTensorIterator<V>`): owns its COO list and keeps a
cursor.  The constructor takes ownership of the list and starts the cursor at
`begin`, i.e. position 0. -/
structure SparseTensorIterator (V : Type) where
  coo : SparseTensorCOO V
  pos : Nat
deriving DecidableEq, Repr

/-- The element sequence still to be delivered by an iterator. -/
def SparseTensorIterator.elemSeq {V : Type} (it : SparseTensorIterator V) :
    List (Element V) :=
  it.coo.elements.drop it.pos

/-- `SparseTensorIterator<V>::getNext` (line 103): `it < end ? &*it++ : nullptr`.
Returns the next element and the advanced iterator, or `none` with the
iterator unchanged once the cursor has reached the end. -/
def SparseTensorIterator.getNext {V : Type} (s : SparseTensorIterator V) :
    Option (Element V) × SparseTensorIterator V :=
  if h : s.pos < s.coo.elements.length then
    (some (s.coo.elements.get ⟨s.pos, h⟩), ⟨s.coo, s.pos + 1⟩)
  else
    (none, s)

/-- `delSparseTensorIterator` (lines 717-722): the iterator destructor runs and
`delete coo` frees the COO list the iterator owns.  The value returned is the
resource released together with the iterator. -/
def delSparseTensorIterator {V : Type} (it : SparseTensorIterator V) :
    SparseTensorCOO V :=
  it.coo

/-- Interpretations of the `void *ptr` action argument of the dispatcher.
Per action the source casts `ptr` to a different type; collaborators outside
this file are abstracted: `asCOO` is the `SparseTensorCOO<V>` a `kFromCOO`
call reads, `tensorToCOO` is the behavior of `SparseTensorStorage::toCOO`
(Storage.h, outside src/) as an uninterpreted function of
`(lvlRank, lvlSizes, dimRank, dim2lvl)`, and `tensorId` / `buffersId`
identify the storage object / raw buffer array passed to the remaining
actions. -/
structure OpaquePtr (V : Type) where
  asCOO : SparseTensorCOO V
  tensorToCOO : Nat → List Nat → Nat → List Nat → SparseTensorCOO V
  tensorId : Nat
  buffersId : Nat

/-- The memref arguments of `_mlir_ciface_newSparseTensor`; `dimRank` and
`lvlRank` are read off as the memref sizes of `dimSizesRef` / `lvlSizesRef`,
so here they are the list lengths.  Level types are opaque codes. -/
structure NewTensorArgs (V : Type) where
  dimSizes : List Nat
  lvlSizes : List Nat
  lvlTypes : List Nat
  dim2lvl : List Nat
  lvl2dim : List Nat
  ptr : OpaquePtr V

/-- What the selected `CASE` body constructs for each action: the invoked
specialized constructor together with the arguments the source passes it
(`newFromSparseTensor` and `packFromLvlBuffers` receive `dimRank` again as
the source-rank argument, exactly as in lines 189-215). -/
inductive ActionResult (V : Type) where
  | newEmpty (dimRank : Nat) (dimSizes : List Nat) (lvlRank : Nat)
      (lvlSizes : List Nat) (lvlTypes : List Nat) (lvl2dim : List Nat)
  | newFromCOO (dimRank : Nat) (dimSizes : List Nat) (lvlRank : Nat)
      (lvlTypes : List Nat) (lvl2dim : List Nat) (coo : SparseTensorCOO V)
  | newFromSparseTensor (dimRank : Nat) (dimSizes : List Nat) (lvlRank : Nat)
      (lvlSizes : List Nat) (lvlTypes : List Nat) (lvl2dim : List Nat)
      (srcRank : Nat) (dim2lvl : List Nat) (tensor : Nat)
  | emptyCOO (lvlRank : Nat) (lvlSizes : List Nat)
  | toCOO (coo : SparseTensorCOO V)
  | toIterator (iter : SparseTensorIterator V)
  | pack (dimRank : Nat) (dimSizes : List Nat) (lvlRank : Nat)
      (lvlSizes : List Nat) (lvlTypes : List Nat) (lvl2dim : List Nat)
      (srcRank : Nat) (dim2lvl : List Nat) (buffers : Nat)

/-- Outcome of a dispatch: either the matched specialization `(P, C, V)` with
the object its `CASE` body constructed, or the fatal diagnostic of lines
363-368 naming the three (post-rewrite) tags. -/
inductive DispatchResult (V : Type) where
  | constructed (P C : OvCppType) (Vt : ValCppType) (res : ActionResult V)
  | fatalUnsupported (posTp crdTp : OverheadType) (valTp : PrimaryType)

/-- The `switch (action)` body shared by every `CASE` of
`_mlir_ciface_newSparseTensor` (lines 179-216).  Since `Action` is a closed
enum here, the trailing "unknown action" fatal is unreachable. -/
def runAction {V : Type} (action : ActionTag) (dimRank : Nat) (dimSizes : List Nat)
    (lvlRank : Nat) (lvlSizes : List Nat) (lvlTypes : List Nat)
    (dim2lvl : List Nat) (lvl2dim : List Nat) (ptr : OpaquePtr V) :
    ActionResult V :=
  match action with
  | .kEmpty => .newEmpty dimRank dimSizes lvlRank lvlSizes lvlTypes lvl2dim
  | .kFromCOO => .newFromCOO dimRank dimSizes lvlRank lvlTypes lvl2dim ptr.asCOO
  | .kSparseToSparse =>
      .newFromSparseTensor dimRank dimSizes lvlRank lvlSizes lvlTypes lvl2dim
        dimRank dim2lvl ptr.tensorId
  | .kEmptyCOO => .emptyCOO lvlRank lvlSizes
  | .kToCOO => .toCOO (ptr.tensorToCOO lvlRank lvlSizes dimRank dim2lvl)
  | .kToIterator =>
      .toIterator ⟨ptr.tensorToCOO lvlRank lvlSizes dimRank dim2lvl, 0⟩
  | .kPack =>
      .pack dimRank dimSizes lvlRank lvlSizes lvlTypes lvl2dim dimRank dim2lvl
        ptr.buffersId

/-- `_mlir_ciface_newSparseTensor` (lines 230-369): rewrite `kIndex` to
`kU64` in both overhead positions, then walk the `CASE` chain; the first
matching specialization runs the action switch, and if no guard matches the
call ends in `MLIR_SPARSETENSOR_FATAL` naming the three tags. -/
def newSparseTensor {V : Type} (args : NewTensorArgs V) (posTp crdTp : OverheadType)
    (valTp : PrimaryType) (action : ActionTag) : DispatchResult V :=
  match findSpecialization (resolveIndex posTp) (resolveIndex crdTp) valTp with
  | some (P, C, Vt) =>
      .constructed P C Vt
        (runAction action args.dimSizes.length args.dimSizes
          args.lvlSizes.length args.lvlSizes args.lvlTypes args.dim2lvl
          args.lvl2dim args.ptr)
  | none =>
      .fatalUnsupported (resolveIndex posTp) (resolveIndex crdTp) valTp

/-- The reader argument of `_mlir_ciface_newSparseTensorFromReader`:
`rank` is `reader.getRank()` and `id` identifies the reader object passed to
`readSparseTensor`. -/
structure ReaderRef where
  rank : Nat
  id : Nat

/-- The memref arguments of `_mlir_ciface_newSparseTensorFromReader`. -/
structure FromReaderArgs where
  reader : ReaderRef
  lvlSizes : List Nat
  lvlTypes : List Nat
  dim2lvl : List Nat
  lvl2dim : List Nat

/-- Outcome of the reader dispatch: the matched specialization with the
`reader.readSparseTensor<P, C, V>` call it performs (recorded with its
arguments), or the fatal diagnostic of lines 637-640. -/
inductive ReaderDispatchResult where
  | constructed (P C : OvCppType) (Vt : ValCppType) (readerId : Nat)
      (lvlRank : Nat) (lvlSizes : List Nat) (lvlTypes : List Nat)
      (dim2lvl : List Nat) (lvl2dim : List Nat)
  | fatalUnsupported (posTp crdTp : OverheadType) (valTp : PrimaryType)

/-- `_mlir_ciface_newSparseTensorFromReader` (lines 537-643): the same
`kIndex` rewrite followed by the same ordered `CASE` chain, each case calling
`reader.readSparseTensor<P, C, V>(lvlRank, lvlSizes, lvlTypes, dim2lvl,
lvl2dim)`. -/
def newSparseTensorFromReader (args : FromReaderArgs)
    (posTp crdTp : OverheadType) (valTp : PrimaryType) : ReaderDispatchResult :=
  match findSpecialization (resolveIndex posTp) (resolveIndex crdTp) valTp with
  | some (P, C, Vt) =>
      .constructed P C Vt args.reader.id args.lvlSizes.length args.lvlSizes
        args.lvlTypes args.dim2lvl args.lvl2dim
  | none =>
      .fatalUnsupported (resolveIndex posTp) (resolveIndex crdTp) valTp

/-- `_mlir_ciface_getNext` (lines 431-450): pull one element from the
iterator; on `nullptr` return `false` leaving the caller's coordinate buffer
and value slot untouched, otherwise write the element's first `rank`
coordinates (with `rank` the size of the coordinate memref) and its value,
and return `true`.  The result bundles the continue/stop flag, the advanced
iterator, and the (possibly rewritten) output buffers. -/
def cifaceGetNext {V : Type} (iter : SparseTensorIterator V) (cref : List Nat)
    (vref : V) : Bool × SparseTensorIterator V × List Nat × V :=
  let rank := cref.length
  match iter.getNext with
  | (none, it) => (false, it, cref, vref)
  | (some elem, it) =>
      (true, it, (List.range rank).map (fun d => elem.coords.getD d 0),
        elem.value)

/-- State reached after a number of `_mlir_ciface_getNext` calls, threading
the iterator and the caller-side buffers through each call. -/
def afterGetNextCalls {V : Type} :
    Nat → SparseTensorIterator V × List Nat × V →
      SparseTensorIterator V × List Nat × V
  | 0, s => s
  | k + 1, s => afterGetNextCalls k (cifaceGetNext s.1 s.2.1 s.2.2).2

/-- Level-coordinate construction of `_mlir_ciface_addElt` (lines 419-421):
a `rank`-sized vector, zero-initialized as by `std::vector<index_type>(rank)`,
with `lvlCoords[dim2lvl[d]] = dimCoords[d]` for each `d < rank`. -/
def buildLvlCoords (rank : Nat) (dimCoords dim2lvl : List Nat) : List Nat :=
  (List.range rank).foldl
    (fun acc d => acc.set (dim2lvl.getD d 0) (dimCoords.getD d 0))
    (List.replicate rank 0)

/-- `_mlir_ciface_addElt` (lines 407-427): reads `rank` off the coordinate
memref, permutes the dimension coordinates into level coordinates through
`dim2lvl`, calls `add` on the COO object behind the handle, and returns the
very handle it was given.  Handles are modelled as naturals addressing a
heap of COO objects, so the in-place mutation is an update of the heap at
that handle. -/
def cifaceAddElt {V : Type} (lvlCOO : Nat) (heap : Nat → SparseTensorCOO V)
    (value : V) (dimCoords dim2lvl : List Nat) :
    Nat × (Nat → SparseTensorCOO V) :=
  let rank := dimCoords.length
  let lvlCoords := buildLvlCoords rank dimCoords dim2lvl
  (lvlCOO, fun h =>
    if h = lvlCOO then (heap lvlCOO).add lvlCoords value else heap h)

/-- Tokens written to a `SparseTensorWriter` stream: each C++ `operator<<`
emits one token (`endl` also flushes). -/
inductive Tok where
  | num (n : Nat)
  | space
  | newline
  | str (s : String)
deriving DecidableEq, Repr

/-- Writer stream state: tokens already flushed to the file, tokens still
pending in the stream buffer, and the stream's good/fail state. -/
structure SparseTensorWriter where
  pending : List Tok
  flushed : List Tok
  good : Bool
deriving DecidableEq, Repr

/-- One `operator<<` write of a token into the stream buffer. -/
def SparseTensorWriter.put (w : SparseTensorWriter) (t : Tok) :
    SparseTensorWriter :=
  { w with pending := w.pending ++ [t] }

/-- The `flush` member: moves everything pending into the file. -/
def SparseTensorWriter.flush (w : SparseTensorWriter) : SparseTensorWriter :=
  { pending := [], flushed := w.flushed ++ w.pending, good := w.good }

/-- Writing `std::endl`: a newline followed by a flush. -/
def SparseTensorWriter.endl (w : SparseTensorWriter) : SparseTensorWriter :=
  (w.put Tok.newline).flush

/-- Everything written so far, flushed or not, in order. -/
def SparseTensorWriter.output (w : SparseTensorWriter) : List Tok :=
  w.flushed ++ w.pending

/-- `createSparseTensorWriter` (lines 766-771): choose `std::cout` when the
filename is empty (first byte 0), otherwise a fresh file stream, and write
the comment line literal.  Returns the stream and whether it is `cout`. -/
def createSparseTensorWriter (filenameIsEmpty : Bool) :
    SparseTensorWriter × Bool :=
  (⟨[Tok.str "# extended FROSTT format\n"], [], true⟩, filenameIsEmpty)

/-- `_mlir_ciface_outSparseTensorWriterMetaData` (lines 645-657): writes
`dimRank`, a space, `nse`, `endl`; then each of the first `dimRank - 1`
dimension sizes followed by a space; then the last dimension size and
`endl`.  The source `assert(dimRank != 0)` is a debug precondition carried
as a hypothesis by the theorems below. -/
def outSparseTensorWriterMetaData (w : SparseTensorWriter) (dimRank nse : Nat)
    (dimSizes : List Nat) : SparseTensorWriter :=
  let w := (((w.put (Tok.num dimRank)).put Tok.space).put (Tok.num nse)).endl
  let w := (List.range (dimRank - 1)).foldl
    (fun acc d => (acc.put (Tok.num (dimSizes.getD d 0))).put Tok.space) w
  (w.put (Tok.num (dimSizes.getD (dimRank - 1) 0))).endl

/-- `_mlir_ciface_outSparseTensorWriterNext` (lines 659-674): for each
`d < dimRank` writes `dimCoords[d] + 1` followed by a space, then the value
(printed by the stream's `operator<<`, abstracted as `printV`) and `endl`.
The increment is `uint64_t` arithmetic, so it wraps modulo `2 ^ 64`. -/
def outSparseTensorWriterNext {V : Type} (printV : V → String)
    (w : SparseTensorWriter) (dimRank : Nat) (dimCoords : List Nat)
    (value : V) : SparseTensorWriter :=
  let w := (List.range dimRank).foldl
    (fun acc d =>
      (acc.put (Tok.num ((dimCoords.getD d 0 + 1) % 2 ^ 64))).put Tok.space) w
  (w.put (Tok.str (printV value))).endl

/-- Result of releasing a writer handle: the stream after the flush, the
message of a failed debug assertion (if one fired), and whether the stream
object was deleted. -/
structure DelWriterResult where
  stream : SparseTensorWriter
  failedAssert : Option String
  deleted : Bool
deriving DecidableEq, Repr

/-- `delSparseTensorWriter` (lines 773-779): flush, then `assert(file->good())`
-- a debug-build check that is compiled out when `ndebug` is set -- and
finally `delete` unless the stream is `std::cout`.  A firing assertion
aborts before the delete. -/
def delSparseTensorWriter (ndebug : Bool) (w : SparseTensorWriter)
    (isCout : Bool) : DelWriterResult :=
  if ndebug = false ∧ w.flush.good = false then
    { stream := w.flush, failedAssert := some "file->good()", deleted := false }
  else
    { stream := w.flush, failedAssert := none, deleted := !isCout }

/-- `getTensorFilename` (lines 724-732): formats the variable name
`TENSOR<id>` (decimal, via `snprintf` with `PRIu64`), reads it from the
environment, and either returns its value or ends in
`MLIR_SPARSETENSOR_FATAL` naming the variable, modelled as `Except.error`
carrying the diagnostic text. -/
def getTensorFilename (env : String → Option String) (id : Nat) :
    Except String String :=
  match env ("TENSOR" ++ toString id) with
  | none =>
      Except.error
        ("Environment variable " ++ ("TENSOR" ++ toString id) ++ " is not set\n")
  | some v => Except.ok v

/-- Sample dispatch arguments used by concrete witnesses: a 2-dimensional,
2-level tensor whose abstract enumeration yields one element. -/
def sampleCOO : SparseTensorCOO Nat :=
  ⟨2, [3, 3], [⟨[0, 1], 5⟩, ⟨[1, 2], 7⟩]⟩

/-- Concrete argument record for witnesses of the dispatcher theorems. -/
def sampleArgs : NewTensorArgs Nat where
  dimSizes := [3, 3]
  lvlSizes := [3, 3]
  lvlTypes := [4, 8]
  dim2lvl := [0, 1]
  lvl2dim := [0, 1]
  ptr := ⟨sampleCOO, fun _ _ _ _ => sampleCOO, 0, 0⟩

/-- C1: a request whose (position-width, coordinate-width, value-kind) triple
has no compiled specialization, after the `kIndex` alias is rewritten to the
64-bit width, makes `_mlir_ciface_newSparseTensor` end in the fatal
diagnostic naming the three (rewritten) tags, for every action tag and every
action argument, and never yields a constructed handle. -/
theorem newSparseTensor_unsupported_fatal {V : Type} (args : NewTensorArgs V)
    (posTp crdTp : OverheadType) (valTp : PrimaryType) (action : ActionTag)
    (h : findSpecialization (resolveIndex posTp) (resolveIndex crdTp) valTp =
      none) :
    newSparseTensor args posTp crdTp valTp action =
      DispatchResult.fatalUnsupported (resolveIndex posTp)
        (resolveIndex crdTp) valTp ∧
    ∀ (P C : OvCppType) (Vt : ValCppType) (res : ActionResult V),
      newSparseTensor args posTp crdTp valTp action ≠
        DispatchResult.constructed P C Vt res := by
  unfold newSparseTensor
  rw [h]
  exact ⟨rfl, fun P C Vt res hc => DispatchResult.noConfusion hc⟩

/-- Witness for C1: the triple (kU32, kU32, kC64) is not compiled (complex
values only exist with 64-bit overheads), so dispatch is fatal there. -/
theorem newSparseTensor_unsupported_fatal_witness :
    findSpecialization (resolveIndex OverheadType.kU32)
        (resolveIndex OverheadType.kU32) PrimaryType.kC64 = none ∧
    newSparseTensor sampleArgs OverheadType.kU32 OverheadType.kU32
        PrimaryType.kC64 ActionTag.kEmpty =
      DispatchResult.fatalUnsupported OverheadType.kU32 OverheadType.kU32
        PrimaryType.kC64 :=
  ⟨by decide,
    (newSparseTensor_unsupported_fatal sampleArgs OverheadType.kU32
      OverheadType.kU32 PrimaryType.kC64 ActionTag.kEmpty (by decide)).1⟩

/-- C2: passing the `kIndex` overhead tag for the position width and/or the
coordinate width gives exactly the same dispatch outcome as passing `kU64`
in those positions, for every action and argument, in both
`_mlir_ciface_newSparseTensor` and `_mlir_ciface_newSparseTensorFromReader`. -/
theorem kIndex_alias_equivalent_to_kU64 {V : Type} (args : NewTensorArgs V)
    (rargs : FromReaderArgs) (posTp crdTp : OverheadType)
    (valTp : PrimaryType) (action : ActionTag) :
    (newSparseTensor args OverheadType.kIndex crdTp valTp action =
      newSparseTensor args OverheadType.kU64 crdTp valTp action) ∧
    (newSparseTensor args posTp OverheadType.kIndex valTp action =
      newSparseTensor args posTp OverheadType.kU64 valTp action) ∧
    (newSparseTensor args OverheadType.kIndex OverheadType.kIndex valTp action =
      newSparseTensor args OverheadType.kU64 OverheadType.kU64 valTp action) ∧
    (newSparseTensorFromReader rargs OverheadType.kIndex crdTp valTp =
      newSparseTensorFromReader rargs OverheadType.kU64 crdTp valTp) ∧
    (newSparseTensorFromReader rargs posTp OverheadType.kIndex valTp =
      newSparseTensorFromReader rargs posTp OverheadType.kU64 valTp) ∧
    (newSparseTensorFromReader rargs OverheadType.kIndex OverheadType.kIndex valTp =
      newSparseTensorFromReader rargs OverheadType.kU64 OverheadType.kU64 valTp) :=
  ⟨rfl, rfl, rfl, rfl, rfl, rfl⟩

/-- C4: on any supported specialization, the open-iterator action constructs
an iterator wrapping exactly the coordinate list that the
enumerate-to-coordinate-list action produces from the same instance and
arguments; the iterator's element sequence is that list's element sequence,
and releasing the iterator releases that very list. -/
theorem toIterator_wraps_toCOO {V : Type} (args : NewTensorArgs V)
    (posTp crdTp : OverheadType) (valTp : PrimaryType) (P C : OvCppType)
    (Vt : ValCppType) (l : SparseTensorCOO V)
    (hspec : findSpecialization (resolveIndex posTp) (resolveIndex crdTp)
      valTp = some (P, C, Vt))
    (hcoo : newSparseTensor args posTp crdTp valTp ActionTag.kToCOO =
      DispatchResult.constructed P C Vt (ActionResult.toCOO l)) :
    newSparseTensor args posTp crdTp valTp ActionTag.kToIterator =
      DispatchResult.constructed P C Vt
        (ActionResult.toIterator ⟨l, 0⟩) ∧
    SparseTensorIterator.elemSeq ⟨l, 0⟩ = l.elements ∧
    delSparseTensorIterator (⟨l, 0⟩ : SparseTensorIterator V) = l := by
  unfold newSparseTensor at hcoo ⊢
  rw [hspec] at hcoo ⊢
  simp only [runAction] at hcoo ⊢
  injection hcoo with h1 h2 h3 h4
  injection h4 with h5
  rw [h5]
  refine ⟨rfl, ?_, rfl⟩
  simp [SparseTensorIterator.elemSeq]

/-- Witness for C4: on the (kU64, kU64, kF64) specialization with the sample
arguments, the open-iterator action wraps the enumerated sample list. -/
theorem toIterator_wraps_toCOO_witness :
    findSpecialization (resolveIndex OverheadType.kU64)
        (resolveIndex OverheadType.kU64) PrimaryType.kF64 =
      some (OvCppType.uint64_t, OvCppType.uint64_t, ValCppType.double) ∧
    newSparseTensor sampleArgs OverheadType.kU64 OverheadType.kU64
        PrimaryType.kF64 ActionTag.kToIterator =
      DispatchResult.constructed OvCppType.uint64_t OvCppType.uint64_t
        ValCppType.double (ActionResult.toIterator ⟨sampleCOO, 0⟩) :=
  ⟨by decide,
    (toIterator_wraps_toCOO sampleArgs OverheadType.kU64 OverheadType.kU64
      PrimaryType.kF64 OvCppType.uint64_t OvCppType.uint64_t ValCppType.double
      sampleCOO (by decide) rfl).1⟩

/-- C8: the filename helper consults the environment variable named by the
fixed prefix `TENSOR` followed by the decimal form of the identifier; it
returns the value when set and ends in the fatal diagnostic naming the
variable when unset. -/
theorem getTensorFilename_env_lookup (env : String → Option String) (id : Nat)
    (_hid : id < 2 ^ 64) :
    (env ("TENSOR" ++ toString id) = none →
      getTensorFilename env id =
        Except.error
          ("Environment variable " ++ ("TENSOR" ++ toString id) ++
            " is not set\n")) ∧
    (∀ v, env ("TENSOR" ++ toString id) = some v →
      getTensorFilename env id = Except.ok v) := by
  constructor
  · intro h
    unfold getTensorFilename
    rw [h]
  · intro v h
    unfold getTensorFilename
    rw [h]

/-- Witness for C8: a set variable is returned, an unset one is fatal. -/
theorem getTensorFilename_env_lookup_witness :
    getTensorFilename
        (fun s => if s = "TENSOR0" then some "w.tns" else none) 0 =
      Except.ok "w.tns" ∧
    getTensorFilename (fun _ => none) 1 =
      Except.error "Environment variable TENSOR1 is not set\n" :=
  ⟨(getTensorFilename_env_lookup
      (fun s => if s = "TENSOR0" then some "w.tns" else none) 0
      (by decide)).2 "w.tns" (by decide),
    (getTensorFilename_env_lookup (fun _ => none) 1 (by norm_num)).1 rfl⟩

/-- Writing one token extends the total output by that token. -/
theorem SparseTensorWriter.put_output (w : SparseTensorWriter) (t : Tok) :
    (w.put t).output = w.output ++ [t] := by
  simp [SparseTensorWriter.put, SparseTensorWriter.output]

/-- Flushing does not change the total output. -/
theorem SparseTensorWriter.flush_output (w : SparseTensorWriter) :
    w.flush.output = w.output := by
  simp [SparseTensorWriter.flush, SparseTensorWriter.output]

/-- Writing `endl` extends the total output by a newline token. -/
theorem SparseTensorWriter.endl_output (w : SparseTensorWriter) :
    w.endl.output = w.output ++ [Tok.newline] := by
  simp [SparseTensorWriter.endl, SparseTensorWriter.flush_output,
    SparseTensorWriter.put_output]

/-- A fold writing two tokens per list entry appends the flattened chunks. -/
theorem foldl_put_put_output (f g : Nat → Tok) (L : List Nat)
    (w : SparseTensorWriter) :
    (L.foldl (fun acc d => (acc.put (f d)).put (g d)) w).output =
      w.output ++ (L.map (fun d => [f d, g d])).flatten := by
  induction L generalizing w with
  | nil => simp
  | cons a L ih =>
      simp [List.foldl_cons, ih, SparseTensorWriter.put_output,
        List.append_assoc]

/-- C6: a write-element call with rank at least 1, on coordinates whose
1-based form is representable in `uint64_t` (each below `2 ^ 64 - 1`, which
holds for every valid dimension coordinate), emits exactly one line: each of
the `d` coordinates incremented by one and followed by a space, then the
value, then the line ends; no newline occurs before the final one. -/
theorem writerNext_emits_one_line {V : Type} (printV : V → String)
    (w : SparseTensorWriter) (dimRank : Nat) (dimCoords : List Nat)
    (value : V) (_hrank : 1 ≤ dimRank)
    (hbound : ∀ d, d < dimRank → dimCoords.getD d 0 < 2 ^ 64 - 1) :
    (outSparseTensorWriterNext printV w dimRank dimCoords value).output =
      w.output ++
        (((List.range dimRank).map
            (fun d => [Tok.num (dimCoords.getD d 0 + 1), Tok.space])).flatten ++
          [Tok.str (printV value), Tok.newline]) ∧
    Tok.newline ∉
      ((List.range dimRank).map
          (fun d => [Tok.num (dimCoords.getD d 0 + 1), Tok.space])).flatten ++
        [Tok.str (printV value)] := by
  have hmap : (List.range dimRank).map
      (fun d => [Tok.num ((dimCoords.getD d 0 + 1) % 2 ^ 64), Tok.space]) =
      (List.range dimRank).map
        (fun d => [Tok.num (dimCoords.getD d 0 + 1), Tok.space]) := by
    apply List.map_congr_left
    intro d hd
    rw [Nat.mod_eq_of_lt
      (by have := hbound d (List.mem_range.mp hd); omega)]
  constructor
  · unfold outSparseTensorWriterNext
    rw [SparseTensorWriter.endl_output, SparseTensorWriter.put_output,
      foldl_put_put_output, hmap]
    simp [List.append_assoc]
  · intro hmem
    rcases List.mem_append.mp hmem with h1 | h2
    · rcases List.mem_flatten.mp h1 with ⟨l, hl, hin⟩
      rcases List.mem_map.mp hl with ⟨d, _, rfl⟩
      simp at hin
    · simp at h2

/-- Witness for C6: a rank-2 element line with coordinates (0, 1) and value
printed as "5" comes out as `1 2 5\n` in 1-based form. -/
theorem writerNext_emits_one_line_witness :
    (1 ≤ 2 ∧
      (outSparseTensorWriterNext (fun v : Nat => toString v) ⟨[], [], true⟩ 2
          [0, 1] 5).output =
        [] ++
          (((List.range 2).map
              (fun d => [Tok.num ([0, 1].getD d 0 + 1), Tok.space])).flatten ++
            [Tok.str (toString (5 : Nat)), Tok.newline])) :=
  ⟨by decide,
    (writerNext_emits_one_line (fun v : Nat => toString v) ⟨[], [], true⟩ 2
      [0, 1] 5 (by decide)
      (by
        intro d hd
        have hd2 : d < 2 := by simpa using hd
        interval_cases d <;> decide)).1⟩

/-- C7: a write-header call with rank at least 1 emits one line with the rank
and the non-zero count separated by a space, then one line with the dimension
sizes separated by spaces; together with the comment line written at writer
creation this is exactly the external file format's header. -/
theorem writerMetaData_emits_header_lines (w : SparseTensorWriter)
    (dimRank nse : Nat) (dimSizes : List Nat) (b : Bool)
    (_hrank : 1 ≤ dimRank) :
    (outSparseTensorWriterMetaData w dimRank nse dimSizes).output =
      w.output ++
        ([Tok.num dimRank, Tok.space, Tok.num nse, Tok.newline] ++
          ((List.range (dimRank - 1)).map
              (fun d => [Tok.num (dimSizes.getD d 0), Tok.space])).flatten ++
          [Tok.num (dimSizes.getD (dimRank - 1) 0), Tok.newline]) ∧
    (createSparseTensorWriter b).1.output =
      [Tok.str "# extended FROSTT format\n"] := by
  constructor
  · unfold outSparseTensorWriterMetaData
    rw [SparseTensorWriter.endl_output, SparseTensorWriter.put_output,
      foldl_put_put_output, SparseTensorWriter.endl_output,
      SparseTensorWriter.put_output, SparseTensorWriter.put_output,
      SparseTensorWriter.put_output]
    simp [List.append_assoc]
  · rfl

/-- Witness for C7: the header for a 2x3 matrix with 4 stored entries is the
line `2 4` followed by the line `2 3`. -/
theorem writerMetaData_emits_header_lines_witness :
    (1 ≤ 2 ∧
      (outSparseTensorWriterMetaData ⟨[], [], true⟩ 2 4 [2, 3]).output =
        [] ++
          ([Tok.num 2, Tok.space, Tok.num 4, Tok.newline] ++
            ((List.range (2 - 1)).map
                (fun d => [Tok.num ([2, 3].getD d 0), Tok.space])).flatten ++
            [Tok.num ([2, 3].getD (2 - 1) 0), Tok.newline])) :=
  ⟨by decide,
    (writerMetaData_emits_header_lines ⟨[], [], true⟩ 2 4 [2, 3] true
      (by decide)).1⟩

/-- C5 counterexample: with assertions compiled out (`ndebug` set), releasing
a writer whose stream is in a bad state produces no diagnostic at all and the
release runs to completion (the stream object is even deleted); in a debug
build the message that does fire is the `assert`, not a fatal runtime
diagnostic.  So the bad-stream check is a debug-build check, not a fatal
diagnostic that "always terminates the process". -/
theorem delWriter_bad_stream_not_fatal :
    (SparseTensorWriter.mk [] [] false).flush.good = false ∧
    (delSparseTensorWriter true ⟨[], [], false⟩ false).failedAssert = none ∧
    (delSparseTensorWriter true ⟨[], [], false⟩ false).deleted = true ∧
    (delSparseTensorWriter false ⟨[], [], false⟩ false).failedAssert =
      some "file->good()" := by
  decide

/-- C5 amended: releasing a writer first flushes the stream; the good-state
check is the debug-build assertion `file->good()` -- it aborts the release
(before any delete) only in builds with assertions enabled and a bad stream,
and otherwise the release completes, deleting every non-`cout` stream. -/
theorem delWriter_flushes_then_asserts (ndebug : Bool)
    (w : SparseTensorWriter) (isCout : Bool) :
    (delSparseTensorWriter ndebug w isCout).stream = w.flush ∧
    (ndebug = false → w.flush.good = false →
      delSparseTensorWriter ndebug w isCout =
        ⟨w.flush, some "file->good()", false⟩) ∧
    (ndebug = true ∨ w.flush.good = true →
      (delSparseTensorWriter ndebug w isCout).failedAssert = none ∧
      (delSparseTensorWriter ndebug w isCout).deleted = !isCout) := by
  unfold delSparseTensorWriter
  refine ⟨?_, ?_, ?_⟩
  · split <;> rfl
  · intro hnd hbad
    rw [if_pos ⟨hnd, hbad⟩]
  · intro hok
    have : ¬(ndebug = false ∧ w.flush.good = false) := by
      rcases hok with h | h <;> simp [h]
    rw [if_neg this]
    exact ⟨rfl, rfl⟩

/-- Witness for C5 (amended): a bad stream aborts on the assert in a debug
build, and the same bad stream passes silently when assertions are off. -/
theorem delWriter_flushes_then_asserts_witness :
    delSparseTensorWriter false ⟨[], [], false⟩ false =
      ⟨(SparseTensorWriter.mk [] [] false).flush, some "file->good()",
        false⟩ ∧
    (delSparseTensorWriter true ⟨[], [], false⟩ false).failedAssert = none :=
  ⟨(delWriter_flushes_then_asserts false ⟨[], [], false⟩ false).2.1 rfl rfl,
    ((delWriter_flushes_then_asserts true ⟨[], [], false⟩ false).2.2
      (Or.inl rfl)).1⟩

/-- One `getNext` call keeps the length of the coordinate output buffer. -/
theorem cifaceGetNext_cref_length {V : Type} (it : SparseTensorIterator V)
    (c : List Nat) (v : V) :
    (cifaceGetNext it c v).2.2.1.length = c.length := by
  rcases hg : it.getNext with ⟨e, it2⟩
  cases e <;> simp [cifaceGetNext, hg]

/-- Repeated `getNext` calls keep the length of the coordinate buffer. -/
theorem afterGetNextCalls_cref_length {V : Type} (k : Nat) :
    ∀ s : SparseTensorIterator V × List Nat × V,
      (afterGetNextCalls k s).2.1.length = s.2.1.length := by
  induction k with
  | zero => intro s; rfl
  | succ k ih =>
      intro s
      rw [afterGetNextCalls, ih]
      exact cifaceGetNext_cref_length s.1 s.2.1 s.2.2

/-- After `k` calls on an iterator at position `pos ≤ N` over a COO list of
`N` elements, the iterator sits at position `pos + k`, saturating at `N`. -/
theorem afterGetNextCalls_iter {V : Type} (coo : SparseTensorCOO V) (k : Nat) :
    ∀ (pos : Nat) (c : List Nat) (v : V), pos ≤ coo.elements.length →
      (pos + k ≤ coo.elements.length →
        (afterGetNextCalls k (⟨coo, pos⟩, c, v)).1 = ⟨coo, pos + k⟩) ∧
      (coo.elements.length ≤ pos + k →
        (afterGetNextCalls k (⟨coo, pos⟩, c, v)).1 =
          ⟨coo, coo.elements.length⟩) := by
  induction k with
  | zero =>
      intro pos c v hpos
      constructor
      · intro h
        rfl
      · intro h
        show (⟨coo, pos⟩ : SparseTensorIterator V) = ⟨coo, coo.elements.length⟩
        congr 1
        omega
  | succ k ih =>
      intro pos c v hpos
      rw [afterGetNextCalls]
      by_cases hlt : pos < coo.elements.length
      · have hstep :
            (cifaceGetNext (⟨coo, pos⟩ : SparseTensorIterator V) c v).2 =
              (⟨coo, pos + 1⟩,
                (List.range c.length).map
                  (fun d => (coo.elements.get ⟨pos, hlt⟩).coords.getD d 0),
                (coo.elements.get ⟨pos, hlt⟩).value) := by
          simp [cifaceGetNext, SparseTensorIterator.getNext, hlt]
        rw [hstep]
        constructor
        · intro h
          rw [(ih (pos + 1) _ _ hlt).1 (by omega)]
          congr 1
          omega
        · intro h
          exact (ih (pos + 1) _ _ hlt).2 (by omega)
      · have hpos2 : pos = coo.elements.length := by omega
        have hstep :
            (cifaceGetNext (⟨coo, pos⟩ : SparseTensorIterator V) c v).2 =
              (⟨coo, pos⟩, c, v) := by
          simp [cifaceGetNext, SparseTensorIterator.getNext, hlt]
        rw [hstep]
        constructor
        · intro h
          rw [(ih pos c v hpos).2 (by omega)]
          congr 1
          omega
        · intro h
          exact (ih pos c v hpos).2 (by omega)

/-- Reading every position of a list through `getD` over its index range
reproduces the list. -/
theorem map_getD_range (c : List Nat) :
    (List.range c.length).map (fun d => c.getD d 0) = c := by
  apply List.ext_getElem
  · simp
  · intro i h1 h2
    rw [List.getElem_map, List.getElem_range]
    exact List.getD_eq_getElem c 0 h2

/-- C3: on an iterator freshly wrapping a COO list of N elements whose
coordinate tuples match the output buffer's rank, each of the first N
get-next calls returns the continue flag and delivers the list's elements in
order, while the (N+1)-th and every later call return the stop flag: the
iterator is permanently exhausted and cannot be restarted. -/
theorem getNext_enumerates_then_stops {V : Type} (coo : SparseTensorCOO V)
    (cref : List Nat) (vref : V)
    (hrank : ∀ e ∈ coo.elements, e.coords.length = cref.length) (k : Nat) :
    ((hk : k < coo.elements.length) →
      cifaceGetNext
          (afterGetNextCalls k ((⟨coo, 0⟩ : SparseTensorIterator V), cref, vref)).1
          (afterGetNextCalls k ((⟨coo, 0⟩ : SparseTensorIterator V), cref, vref)).2.1
          (afterGetNextCalls k ((⟨coo, 0⟩ : SparseTensorIterator V), cref, vref)).2.2 =
        (true, ⟨coo, k + 1⟩, (coo.elements.get ⟨k, hk⟩).coords,
          (coo.elements.get ⟨k, hk⟩).value)) ∧
    (coo.elements.length ≤ k →
      (cifaceGetNext
          (afterGetNextCalls k ((⟨coo, 0⟩ : SparseTensorIterator V), cref, vref)).1
          (afterGetNextCalls k ((⟨coo, 0⟩ : SparseTensorIterator V), cref, vref)).2.1
          (afterGetNextCalls k ((⟨coo, 0⟩ : SparseTensorIterator V), cref, vref)).2.2).1 =
        false) := by
  have hlen := afterGetNextCalls_cref_length k
    ((⟨coo, 0⟩ : SparseTensorIterator V), cref, vref)
  constructor
  · intro hk
    have hs1 : (afterGetNextCalls k
        ((⟨coo, 0⟩ : SparseTensorIterator V), cref, vref)).1 = ⟨coo, k⟩ := by
      rw [(afterGetNextCalls_iter coo k 0 cref vref (Nat.zero_le _)).1
        (by omega)]
      congr 1
      omega
    have hel : (coo.elements.get ⟨k, hk⟩).coords.length = cref.length :=
      hrank _ (coo.elements.get_mem k hk)
    have hget : (SparseTensorIterator.mk coo k).getNext =
        (some (coo.elements.get ⟨k, hk⟩), ⟨coo, k + 1⟩) := by
      simp [SparseTensorIterator.getNext, hk]
    rw [hs1]
    rw [show cifaceGetNext (⟨coo, k⟩ : SparseTensorIterator V)
        (afterGetNextCalls k ((⟨coo, 0⟩ : SparseTensorIterator V), cref, vref)).2.1
        (afterGetNextCalls k ((⟨coo, 0⟩ : SparseTensorIterator V), cref, vref)).2.2 =
      (true, ⟨coo, k + 1⟩,
        (List.range (afterGetNextCalls k
            ((⟨coo, 0⟩ : SparseTensorIterator V), cref, vref)).2.1.length).map
          (fun d => (coo.elements.get ⟨k, hk⟩).coords.getD d 0),
        (coo.elements.get ⟨k, hk⟩).value) from by
      simp [cifaceGetNext, hget]]
    rw [hlen, show cref.length = (coo.elements.get ⟨k, hk⟩).coords.length from
      hel.symm, map_getD_range]
  · intro hk
    have hs1 : (afterGetNextCalls k
        ((⟨coo, 0⟩ : SparseTensorIterator V), cref, vref)).1 =
        ⟨coo, coo.elements.length⟩ := by
      rw [(afterGetNextCalls_iter coo k 0 cref vref (Nat.zero_le _)).2
        (by omega)]
    have hget :
        (SparseTensorIterator.mk coo coo.elements.length).getNext =
          (none, ⟨coo, coo.elements.length⟩) := by
      simp [SparseTensorIterator.getNext]
    rw [hs1]
    simp [cifaceGetNext, hget]

/-- Witness for C3: on the two-element sample list, the first call delivers
the first element with the continue flag. -/
theorem getNext_enumerates_then_stops_witness :
    (∀ e ∈ sampleCOO.elements, e.coords.length = ([0, 0] : List Nat).length) ∧
    cifaceGetNext
        (afterGetNextCalls 0
          ((⟨sampleCOO, 0⟩ : SparseTensorIterator Nat), [0, 0], 0)).1
        (afterGetNextCalls 0
          ((⟨sampleCOO, 0⟩ : SparseTensorIterator Nat), [0, 0], 0)).2.1
        (afterGetNextCalls 0
          ((⟨sampleCOO, 0⟩ : SparseTensorIterator Nat), [0, 0], 0)).2.2 =
      (true, ⟨sampleCOO, 1⟩,
        (sampleCOO.elements.get ⟨0, by decide⟩).coords,
        (sampleCOO.elements.get ⟨0, by decide⟩).value) :=
  ⟨by decide,
    (getNext_enumerates_then_stops sampleCOO [0, 0] 0 (by decide) 0).1
      (by decide)⟩

/-- C9: whenever the get-next entry point returns the stop flag, the
caller-provided coordinate buffer and value slot are returned exactly as they
came in: outputs are written only on calls that return the continue flag. -/
theorem getNext_stop_leaves_outputs_unchanged {V : Type}
    (iter : SparseTensorIterator V) (cref : List Nat) (vref : V)
    (h : (cifaceGetNext iter cref vref).1 = false) :
    (cifaceGetNext iter cref vref).2.2.1 = cref ∧
    (cifaceGetNext iter cref vref).2.2.2 = vref := by
  rcases hg : iter.getNext with ⟨e, it2⟩
  cases e with
  | none => constructor <;> simp [cifaceGetNext, hg]
  | some elem =>
      have htrue : (cifaceGetNext iter cref vref).1 = true := by
        simp [cifaceGetNext, hg]
      rw [htrue] at h
      exact Bool.noConfusion h

/-- Witness for C9: an exhausted iterator returns the stop flag and leaves
the buffers exactly as given. -/
theorem getNext_stop_leaves_outputs_unchanged_witness :
    (cifaceGetNext (⟨⟨1, [4], []⟩, 0⟩ : SparseTensorIterator Nat) [9] 3).1 =
      false ∧
    ((cifaceGetNext (⟨⟨1, [4], []⟩, 0⟩ : SparseTensorIterator Nat) [9] 3).2.2.1 =
        [9] ∧
      (cifaceGetNext (⟨⟨1, [4], []⟩, 0⟩ : SparseTensorIterator Nat) [9] 3).2.2.2 =
        3) :=
  ⟨by decide,
    getNext_stop_leaves_outputs_unchanged
      (⟨⟨1, [4], []⟩, 0⟩ : SparseTensorIterator Nat) [9] 3 (by decide)⟩

/-- Setting an index leaves reads at other indices unchanged. -/
theorem getD_set_ne (l : List Nat) (i j x : Nat) (h : i ≠ j) :
    (l.set i x).getD j 0 = l.getD j 0 := by
  rw [List.getD_eq_getD_get?, List.getD_eq_getD_get?, List.get?_set_ne x l h]

/-- Setting an in-bounds index is read back by `getD` at that index. -/
theorem getD_set_self (l : List Nat) (i x : Nat) (h : i < l.length) :
    (l.set i x).getD i 0 = x := by
  rw [List.getD_eq_getD_get?, List.get?_set_eq_of_lt x h]
  rfl

/-- A fold of index writes keeps the buffer length. -/
theorem foldl_set_length (dl dc : List Nat) (L : List Nat) :
    ∀ acc : List Nat,
      (L.foldl (fun a d => a.set (dl.getD d 0) (dc.getD d 0)) acc).length =
        acc.length := by
  induction L with
  | nil => intro acc; rfl
  | cons a L ih => intro acc; rw [List.foldl_cons, ih, List.length_set]

/-- Folding the writes `a[dl[d]] := dc[d]` over `d < n`, with all write
positions in bounds and pairwise distinct, makes the final read at `dl[d]`
return `dc[d]` for every `d < n`. -/
theorem range_foldl_set_getD (dc dl : List Nat) :
    ∀ (n : Nat) (acc : List Nat),
      (∀ i, i < n → dl.getD i 0 < acc.length) →
      (∀ i j, i < n → j < n → dl.getD i 0 = dl.getD j 0 → i = j) →
      ∀ d, d < n →
        ((List.range n).foldl
            (fun a d2 => a.set (dl.getD d2 0) (dc.getD d2 0)) acc).getD
          (dl.getD d 0) 0 = dc.getD d 0 := by
  intro n
  induction n with
  | zero => intro acc _ _ d hd; omega
  | succ n ih =>
      intro acc hlt hinj d hd
      rw [List.range_succ, List.foldl_append, List.foldl_cons, List.foldl_nil]
      by_cases hdn : d = n
      · subst hdn
        rw [getD_set_self _ _ _ (by rw [foldl_set_length]; exact hlt d hd)]
      · have hne : dl.getD n 0 ≠ dl.getD d 0 := fun heq =>
          hdn ((hinj n d (by omega) (by omega) heq).symm)
        rw [getD_set_ne _ _ _ _ hne]
        exact ih acc (fun i hi => hlt i (by omega))
          (fun i j hi hj => hinj i j (by omega) (by omega)) d (by omega)

/-- The level-coordinate vector built by `addElt` has length `rank`. -/
theorem buildLvlCoords_length (rank : Nat) (dimCoords dim2lvl : List Nat) :
    (buildLvlCoords rank dimCoords dim2lvl).length = rank := by
  unfold buildLvlCoords
  rw [foldl_set_length]
  exact List.length_replicate rank 0

/-- C10: an add-element call whose dimension-to-level mapping is a
permutation of `0..r-1` appends to the list exactly one element whose level
coordinate at position `dim2lvl[d]` is the dimension coordinate at position
`d` for every `d < r`, returns the very handle it was given, and leaves
every other coordinate list untouched. -/
theorem addElt_level_permutation {V : Type} (lvlCOO : Nat)
    (heap : Nat → SparseTensorCOO V) (value : V)
    (dimCoords dim2lvl : List Nat)
    (_hlen : dim2lvl.length = dimCoords.length)
    (hlt : ∀ d, d < dimCoords.length → dim2lvl.getD d 0 < dimCoords.length)
    (hinj : ∀ i j, i < dimCoords.length → j < dimCoords.length →
      dim2lvl.getD i 0 = dim2lvl.getD j 0 → i = j) :
    (cifaceAddElt lvlCOO heap value dimCoords dim2lvl).1 = lvlCOO ∧
    (∃ e : Element V,
      ((cifaceAddElt lvlCOO heap value dimCoords dim2lvl).2 lvlCOO).elements =
        (heap lvlCOO).elements ++ [e] ∧
      e.value = value ∧
      e.coords.length = dimCoords.length ∧
      ∀ d, d < dimCoords.length →
        e.coords.getD (dim2lvl.getD d 0) 0 = dimCoords.getD d 0) ∧
    (∀ h2, h2 ≠ lvlCOO →
      (cifaceAddElt lvlCOO heap value dimCoords dim2lvl).2 h2 = heap h2) := by
  refine ⟨rfl,
    ⟨⟨buildLvlCoords dimCoords.length dimCoords dim2lvl, value⟩, ?_, rfl,
      buildLvlCoords_length _ _ _, ?_⟩, ?_⟩
  · simp [cifaceAddElt, SparseTensorCOO.add]
  · intro d hd
    unfold buildLvlCoords
    exact range_foldl_set_getD dimCoords dim2lvl dimCoords.length _
      (fun i hi => by rw [List.length_replicate]; exact hlt i hi) hinj d hd
  · intro h2 hne
    simp [cifaceAddElt, hne]

/-- Witness for C10: adding dimension coordinates (7, 9) through the swap
mapping returns the same handle 5. -/
theorem addElt_level_permutation_witness :
    ([1, 0] : List Nat).length = ([7, 9] : List Nat).length ∧
    (cifaceAddElt 5 (fun _ => (⟨2, [4, 5], []⟩ : SparseTensorCOO Nat)) 3
        [7, 9] [1, 0]).1 = 5 :=
  ⟨by decide,
    (addElt_level_permutation 5 (fun _ => (⟨2, [4, 5], []⟩ : SparseTensorCOO Nat))
      3 [7, 9] [1, 0] (by decide)
      (by
        intro d hd
        have hd2 : d < 2 := by simpa using hd
        interval_cases d <;> decide)
      (by
        intro i j hi hj
        have hi2 : i < 2 := by simpa using hi
        have hj2 : j < 2 := by simpa using hj
        interval_cases i <;> interval_cases j <;> simp_all)).1⟩
